import Mathlib

/-!
# Boot sequence, fault indicator and periodic task of `Src/main.c`

A shallow embedding of `main.c` (STM32F7 HAL template with a FreeRTOS blink task).

* Every call that leaves `main.c` (HAL, BSP, CMSIS, RTOS) is recorded as an `Event`
  appended to the trace held in the machine `State`.
* The values the outside world returns to those calls are read from an `Env`.
* A C function becomes a state-passing function `State → Outcome α`; an unbounded
  loop (`while(1)`, `for(;;)`) takes a bound on the number of iterations that are
  observed, and answers `Outcome.noret` when that bound is used up.
* Constants that come from headers outside `Src/main.c` are kept symbolic, as
  constructors that carry the name used in the source.
-/

namespace Stm32f7

/-! ## Types and constants from the vendor headers -/

/-- Modelled from the spec: the vendor status type `HAL_StatusTypeDef` (its header is
not part of the sources); `HAL_OK` is success, every other value is a non-success. -/
inductive HAL_StatusTypeDef
| HAL_OK
| HAL_ERROR
| HAL_BUSY
| HAL_TIMEOUT
deriving DecidableEq, Repr

/-- Modelled from the spec: the status returned by `BSP_LCD_Init` (header not part of
the sources); `LCD_OK` is success, every other value is a non-success. -/
inductive LCD_Status
| LCD_OK
| LCD_ERROR
| LCD_TIMEOUT
deriving DecidableEq, Repr

/-- The board indicator handles (`Led_TypeDef`); `main.c` only uses `LED1`. -/
inductive Led_TypeDef
| LED1
deriving DecidableEq, Repr

/-- The value of the `Enable` field of an MPU region. -/
inductive MpuRegionEnable
| MPU_REGION_ENABLE
| MPU_REGION_DISABLE
deriving DecidableEq, Repr

/-- The size codes of an MPU region; `main.c` only uses `MPU_REGION_SIZE_256KB`. -/
inductive MpuRegionSize
| MPU_REGION_SIZE_256KB
deriving DecidableEq, Repr

/-- Modelled from the spec: the number of bytes a region size code stands for (the
macro is defined in a vendor header that is not part of the sources); the code
`MPU_REGION_SIZE_256KB` stands for 256 KiB. -/
def MpuRegionSize.bytes : MpuRegionSize → Nat
| .MPU_REGION_SIZE_256KB => 256 * 1024

/-- The access permission codes of an MPU region. -/
inductive MpuAccessPermission
| MPU_REGION_NO_ACCESS
| MPU_REGION_PRIV_RW
| MPU_REGION_PRIV_RW_URO
| MPU_REGION_FULL_ACCESS
| MPU_REGION_PRIV_RO
| MPU_REGION_PRIV_RO_URO
deriving DecidableEq, Repr

/-- The value of the `IsBufferable` field. -/
inductive MpuBufferable
| MPU_ACCESS_BUFFERABLE
| MPU_ACCESS_NOT_BUFFERABLE
deriving DecidableEq, Repr

/-- The value of the `IsCacheable` field. -/
inductive MpuCacheable
| MPU_ACCESS_CACHEABLE
| MPU_ACCESS_NOT_CACHEABLE
deriving DecidableEq, Repr

/-- The value of the `IsShareable` field. -/
inductive MpuShareable
| MPU_ACCESS_SHAREABLE
| MPU_ACCESS_NOT_SHAREABLE
deriving DecidableEq, Repr

/-- The region numbers; `main.c` only uses `MPU_REGION_NUMBER0`. -/
inductive MpuRegionNumber
| MPU_REGION_NUMBER0
| MPU_REGION_NUMBER1
| MPU_REGION_NUMBER2
| MPU_REGION_NUMBER3
| MPU_REGION_NUMBER4
| MPU_REGION_NUMBER5
| MPU_REGION_NUMBER6
| MPU_REGION_NUMBER7
deriving DecidableEq, Repr

/-- Modelled from the spec: the region index a region-number macro stands for (vendor
header not part of the sources); `MPU_REGION_NUMBERk` is region `k`. -/
def MpuRegionNumber.index : MpuRegionNumber → Nat
| .MPU_REGION_NUMBER0 => 0
| .MPU_REGION_NUMBER1 => 1
| .MPU_REGION_NUMBER2 => 2
| .MPU_REGION_NUMBER3 => 3
| .MPU_REGION_NUMBER4 => 4
| .MPU_REGION_NUMBER5 => 5
| .MPU_REGION_NUMBER6 => 6
| .MPU_REGION_NUMBER7 => 7

/-- The type-extension levels. -/
inductive MpuTex
| MPU_TEX_LEVEL0
| MPU_TEX_LEVEL1
| MPU_TEX_LEVEL2
deriving DecidableEq, Repr

/-- Modelled from the spec: the type-extension level a TEX macro stands for (vendor
header not part of the sources). -/
def MpuTex.level : MpuTex → Nat
| .MPU_TEX_LEVEL0 => 0
| .MPU_TEX_LEVEL1 => 1
| .MPU_TEX_LEVEL2 => 2

/-- The value of the `DisableExec` field. -/
inductive MpuDisableExec
| MPU_INSTRUCTION_ACCESS_ENABLE
| MPU_INSTRUCTION_ACCESS_DISABLE
deriving DecidableEq, Repr

/-- The background policy handed to `HAL_MPU_Enable`. -/
inductive MpuControl
| MPU_HFNMI_PRIVDEF_NONE
| MPU_HARDFAULT_NMI
| MPU_PRIVILEGED_DEFAULT
| MPU_HFNMI_PRIVDEF
deriving DecidableEq, Repr

/-- The record `MPU_Region_InitTypeDef`, with the eleven fields `MPU_Config` assigns. -/
structure MPU_Region_InitTypeDef where
  Enable : MpuRegionEnable
  BaseAddress : Nat
  Size : MpuRegionSize
  AccessPermission : MpuAccessPermission
  IsBufferable : MpuBufferable
  IsCacheable : MpuCacheable
  IsShareable : MpuShareable
  Number : MpuRegionNumber
  TypeExtField : MpuTex
  SubRegionDisable : Nat
  DisableExec : MpuDisableExec
deriving DecidableEq, Repr

/-- The regulator voltage scales. -/
inductive VoltageScale
| PWR_REGULATOR_VOLTAGE_SCALE1
| PWR_REGULATOR_VOLTAGE_SCALE2
| PWR_REGULATOR_VOLTAGE_SCALE3
deriving DecidableEq, Repr

/-- The oscillator selector of `RCC_OscInitTypeDef`. -/
inductive OscillatorType
| RCC_OSCILLATORTYPE_NONE
| RCC_OSCILLATORTYPE_HSE
| RCC_OSCILLATORTYPE_HSI
| RCC_OSCILLATORTYPE_LSE
| RCC_OSCILLATORTYPE_LSI
deriving DecidableEq, Repr

/-- The state of the external crystal oscillator. -/
inductive HSEState
| RCC_HSE_OFF
| RCC_HSE_ON
| RCC_HSE_BYPASS
deriving DecidableEq, Repr

/-- The state of the main PLL. -/
inductive PLLState
| RCC_PLL_NONE
| RCC_PLL_OFF
| RCC_PLL_ON
deriving DecidableEq, Repr

/-- The clock that feeds the main PLL. -/
inductive PLLSource
| RCC_PLLSOURCE_HSI
| RCC_PLLSOURCE_HSE
deriving DecidableEq, Repr

/-- The PLL post-divider for the system clock. -/
inductive PLLP
| RCC_PLLP_DIV2
| RCC_PLLP_DIV4
| RCC_PLLP_DIV6
| RCC_PLLP_DIV8
deriving DecidableEq, Repr

/-- The record `RCC_PLLInitTypeDef`. -/
structure RCC_PLLInitTypeDef where
  PLLState : PLLState
  PLLSource : PLLSource
  PLLM : Nat
  PLLN : Nat
  PLLP : PLLP
  PLLQ : Nat
deriving DecidableEq, Repr

/-- The fields of `RCC_OscInitTypeDef` that `SystemClock_Config` assigns; the fields it
leaves unassigned (they belong to oscillators that `OscillatorType` does not select)
are not represented. -/
structure RCC_OscInitTypeDef where
  OscillatorType : OscillatorType
  HSEState : HSEState
  PLL : RCC_PLLInitTypeDef
deriving DecidableEq, Repr

/-- The clocks a `RCC_ClkInitTypeDef` configures; `ClockType` is the bitwise or of such
flags, represented as the list of the flags in the order written. -/
inductive ClockTypeFlag
| RCC_CLOCKTYPE_SYSCLK
| RCC_CLOCKTYPE_HCLK
| RCC_CLOCKTYPE_PCLK1
| RCC_CLOCKTYPE_PCLK2
deriving DecidableEq, Repr

/-- The source of the system clock. -/
inductive SYSCLKSource
| RCC_SYSCLKSOURCE_HSI
| RCC_SYSCLKSOURCE_HSE
| RCC_SYSCLKSOURCE_PLLCLK
deriving DecidableEq, Repr

/-- The AHB prescaler. -/
inductive AHBDivider
| RCC_SYSCLK_DIV1
| RCC_SYSCLK_DIV2
| RCC_SYSCLK_DIV4
| RCC_SYSCLK_DIV8
| RCC_SYSCLK_DIV16
| RCC_SYSCLK_DIV64
| RCC_SYSCLK_DIV128
| RCC_SYSCLK_DIV256
| RCC_SYSCLK_DIV512
deriving DecidableEq, Repr

/-- The APB1 and APB2 prescalers. -/
inductive APBDivider
| RCC_HCLK_DIV1
| RCC_HCLK_DIV2
| RCC_HCLK_DIV4
| RCC_HCLK_DIV8
| RCC_HCLK_DIV16
deriving DecidableEq, Repr

/-- The record `RCC_ClkInitTypeDef`. -/
structure RCC_ClkInitTypeDef where
  ClockType : List ClockTypeFlag
  SYSCLKSource : SYSCLKSource
  AHBCLKDivider : AHBDivider
  APB1CLKDivider : APBDivider
  APB2CLKDivider : APBDivider
deriving DecidableEq, Repr

/-- The flash latency codes. -/
inductive FlashLatency
| FLASH_LATENCY_0
| FLASH_LATENCY_1
| FLASH_LATENCY_2
| FLASH_LATENCY_3
| FLASH_LATENCY_4
| FLASH_LATENCY_5
| FLASH_LATENCY_6
| FLASH_LATENCY_7
deriving DecidableEq, Repr

/-- The LCD layer selector macro used by `main.c`. -/
inductive LcdLayer
| LTDC_ACTIVE_LAYER
deriving DecidableEq, Repr

/-- The frame buffer address macro used by `main.c`. -/
inductive LcdFrameBuffer
| LCD_FRAME_BUFFER
deriving DecidableEq, Repr

/-- The colour macros used by `main.c`. -/
inductive LcdColor
| LCD_COLOR_BLACK
| LCD_COLOR_GREEN
deriving DecidableEq, Repr

/-- The thread entry points defined in `main.c`. -/
inductive ThreadEntry
| LED_Thread1
deriving DecidableEq, Repr

/-- The thread priority macro used by `main.c`. -/
inductive osPriority
| osPriorityNormal
deriving DecidableEq, Repr

/-- The stack size macro used by `main.c`. -/
inductive StackSize
| configMINIMAL_STACK_SIZE
deriving DecidableEq, Repr

/-- The record that `osThreadDef(name, thread, priority, instances, stacksz)` defines. -/
structure osThreadDef_t where
  name : String
  pthread : ThreadEntry
  tpriority : osPriority
  instances : Nat
  stacksize : StackSize
deriving DecidableEq, Repr

/-! ## Events, environment, state -/

/-- One call that leaves `main.c`, with the arguments it is given. -/
inductive Event
| HAL_MPU_Disable
| HAL_MPU_ConfigRegion (MPU_Init : MPU_Region_InitTypeDef)
| HAL_MPU_Enable (MPU_Control : MpuControl)
| SCB_EnableICache
| SCB_EnableDCache
| HAL_Init
| __HAL_RCC_PWR_CLK_ENABLE
| __HAL_PWR_VOLTAGESCALING_CONFIG (regulator : VoltageScale)
| HAL_RCC_OscConfig (RCC_OscInitStruct : RCC_OscInitTypeDef)
| HAL_PWREx_ActivateOverDrive
| HAL_RCC_ClockConfig (RCC_ClkInitStruct : RCC_ClkInitTypeDef) (FLatency : FlashLatency)
| BSP_LED_Init (led : Led_TypeDef)
| BSP_SDRAM_Init
| BSP_LCD_Init
| BSP_LCD_LayerDefaultInit (layer : LcdLayer) (fb : LcdFrameBuffer)
| BSP_LCD_SelectLayer (layer : LcdLayer)
| BSP_LCD_DisplayOn
| BSP_LCD_Clear (color : LcdColor)
| BSP_LCD_SetTextColor (color : LcdColor)
| BSP_LCD_GetXSize
| BSP_LCD_GetYSize
| BSP_LCD_DrawRect (x y w h : Nat)
| BSP_LCD_DrawLine (x1 y1 x2 y2 : Nat)
| osThreadCreate (thread_def : osThreadDef_t) (argument : Nat)
| osKernelStart
| osKernelSysTick
| osDelayUntil (PreviousWakeTime : Nat) (millisec : Nat)
| BSP_LED_Toggle (led : Led_TypeDef)
| HAL_Delay (ms : Nat)
deriving DecidableEq, Repr

/-- What the outside world answers to the calls whose result `main.c` receives. -/
structure Env where
  /-- the status `HAL_Init` returns -/
  HAL_Init : HAL_StatusTypeDef
  /-- the status `HAL_RCC_OscConfig` returns -/
  HAL_RCC_OscConfig : HAL_StatusTypeDef
  /-- the status `HAL_PWREx_ActivateOverDrive` returns -/
  HAL_PWREx_ActivateOverDrive : HAL_StatusTypeDef
  /-- the status `HAL_RCC_ClockConfig` returns -/
  HAL_RCC_ClockConfig : HAL_StatusTypeDef
  /-- the status `BSP_SDRAM_Init` returns -/
  BSP_SDRAM_Init : Nat
  /-- the status `BSP_LCD_Init` returns -/
  BSP_LCD_Init : LCD_Status
  /-- the 32-bit value `BSP_LCD_GetXSize` returns -/
  BSP_LCD_GetXSize : Nat
  /-- the 32-bit value `BSP_LCD_GetYSize` returns -/
  BSP_LCD_GetYSize : Nat
  /-- the task identifier `osThreadCreate` returns; `0` is the null identifier -/
  osThreadCreate : Nat
  /-- the status `osKernelStart` returns, `none` when the scheduler keeps control -/
  osKernelStart : Option Nat
  /-- how many ticks after the requested deadline the task runs again, as a function of
  that deadline -/
  wakeLatency : Nat → Nat

/-- The machine state: the calls issued so far (oldest first), the global
`LED1_ThreadId`, and the kernel tick counter. -/
structure State where
  trace : List Event
  LED1_ThreadId : Nat
  tick : Nat
deriving DecidableEq, Repr

/-- The result of running a piece of code: it returned `a` in state `s`, or it did
not return and `s` is the state reached within the observed number of loop turns. -/
inductive Outcome (α : Type)
| ret (a : α) (s : State)
| noret (s : State)
deriving DecidableEq, Repr

/-- The state an outcome carries. -/
def Outcome.state {α : Type} : Outcome α → State
| .ret _ s => s
| .noret s => s

/-- Whether the code returned to its caller. -/
def Outcome.returned {α : Type} : Outcome α → Bool
| .ret _ _ => true
| .noret _ => false

/-- A piece of C code. -/
def Code (α : Type) : Type := State → Outcome α

/-- Sequencing: the second piece runs only if the first returns. -/
def Code.bind {α β : Type} (x : Code α) (f : α → Code β) : Code β :=
  fun s =>
    match x s with
    | .ret a s1 => f a s1
    | .noret s1 => .noret s1

/-- Code that returns at once. -/
def Code.pure {α : Type} (a : α) : Code α :=
  fun s => .ret a s

instance : Monad Code where
  pure := Code.pure
  bind := Code.bind

/-- A call that leaves `main.c` and returns `r`: the call is appended to the trace. -/
def call {α : Type} (e : Event) (r : α) : Code α :=
  fun s => .ret r { s with trace := s.trace ++ [e] }

/-- A call that leaves `main.c` and may never return. -/
def callMayBlock {α : Type} (e : Event) (r : Option α) : Code α :=
  fun s =>
    match r with
    | some a => .ret a { s with trace := s.trace ++ [e] }
    | none => .noret { s with trace := s.trace ++ [e] }

/-- A loop whose observed turns are used up: the code has not returned. -/
def outOfTurns {α : Type} : Code α :=
  fun s => .noret s

/-! ## `MPU_Config` and `CPU_CACHE_Enable` -/

/-- The C function `MPU_Config`. -/
def MPU_Config : Code Unit := do
  call .HAL_MPU_Disable ()
  let MPU_InitStruct : MPU_Region_InitTypeDef :=
    { Enable := .MPU_REGION_ENABLE
      BaseAddress := 0x20010000
      Size := .MPU_REGION_SIZE_256KB
      AccessPermission := .MPU_REGION_FULL_ACCESS
      IsBufferable := .MPU_ACCESS_NOT_BUFFERABLE
      IsCacheable := .MPU_ACCESS_CACHEABLE
      IsShareable := .MPU_ACCESS_NOT_SHAREABLE
      Number := .MPU_REGION_NUMBER0
      TypeExtField := .MPU_TEX_LEVEL0
      SubRegionDisable := 0x00
      DisableExec := .MPU_INSTRUCTION_ACCESS_ENABLE }
  call (.HAL_MPU_ConfigRegion MPU_InitStruct) ()
  call (.HAL_MPU_Enable .MPU_PRIVILEGED_DEFAULT) ()

/-- The C function `CPU_CACHE_Enable`. -/
def CPU_CACHE_Enable : Code Unit := do
  call .SCB_EnableICache ()
  call .SCB_EnableDCache ()

/-- The empty initial state used in closed examples. -/
def reset : State :=
  { trace := [], LED1_ThreadId := 0, tick := 0 }

/-! ## `Error_Handler` -/

/-- The inner loop of `Error_Handler`, entered with counter `i` (an 8-bit counter):
`for (...; i<3; i++) { BSP_LED_Toggle(LED1); HAL_Delay(100); }`. -/
def Error_Handler_for (i : Nat) : Code Unit :=
  if h : i < 3 then do
    call (.BSP_LED_Toggle .LED1) ()
    call (.HAL_Delay 100) ()
    Error_Handler_for ((i + 1) % 256)
  else
    pure ()
termination_by 3 - i
decreasing_by omega

/-- The C function `Error_Handler`; `turns` bounds the observed turns of its `while(1)`. -/
def Error_Handler : Nat → Code Unit
| 0 => outOfTurns
| turns + 1 => do
    Error_Handler_for 0
    call (.HAL_Delay 500) ()
    Error_Handler turns

/-! ## `SystemClock_Config` -/

/-- The C function `SystemClock_Config`; `turns` is handed to `Error_Handler`. -/
def SystemClock_Config (env : Env) (turns : Nat) : Code Unit := do
  call .__HAL_RCC_PWR_CLK_ENABLE ()
  call (.__HAL_PWR_VOLTAGESCALING_CONFIG .PWR_REGULATOR_VOLTAGE_SCALE1) ()
  let RCC_OscInitStruct : RCC_OscInitTypeDef :=
    { OscillatorType := .RCC_OSCILLATORTYPE_HSE
      HSEState := .RCC_HSE_ON
      PLL :=
        { PLLState := .RCC_PLL_ON
          PLLSource := .RCC_PLLSOURCE_HSE
          PLLM := 25
          PLLN := 400
          PLLP := .RCC_PLLP_DIV2
          PLLQ := 8 } }
  let ret ← call (.HAL_RCC_OscConfig RCC_OscInitStruct) env.HAL_RCC_OscConfig
  if ret ≠ .HAL_OK then Error_Handler turns
  let ret ← call .HAL_PWREx_ActivateOverDrive env.HAL_PWREx_ActivateOverDrive
  if ret ≠ .HAL_OK then Error_Handler turns
  let RCC_ClkInitStruct : RCC_ClkInitTypeDef :=
    { ClockType := [.RCC_CLOCKTYPE_SYSCLK, .RCC_CLOCKTYPE_HCLK, .RCC_CLOCKTYPE_PCLK1,
        .RCC_CLOCKTYPE_PCLK2]
      SYSCLKSource := .RCC_SYSCLKSOURCE_PLLCLK
      AHBCLKDivider := .RCC_SYSCLK_DIV1
      APB1CLKDivider := .RCC_HCLK_DIV4
      APB2CLKDivider := .RCC_HCLK_DIV2 }
  if (← call (.HAL_RCC_ClockConfig RCC_ClkInitStruct .FLASH_LATENCY_5) env.HAL_RCC_ClockConfig)
      ≠ .HAL_OK then Error_Handler turns

/-! ## `main` -/

/-- Subtraction of 32-bit unsigned values. -/
def u32sub (a b : Nat) : Nat :=
  (a % 2 ^ 32 + (2 ^ 32 - b % 2 ^ 32)) % 2 ^ 32

/-- Conversion to a 16-bit unsigned value. -/
def u16 (a : Nat) : Nat :=
  a % 2 ^ 16

/-- The difference of two 16-bit values, computed in `int` and converted to a 16-bit
unsigned argument. -/
def u16sub (a b : Nat) : Nat :=
  (a % 2 ^ 16 + (2 ^ 16 - b % 2 ^ 16)) % 2 ^ 16

/-- The assignment to the global `LED1_ThreadId`. -/
def set_LED1_ThreadId (id : Nat) : Code Unit :=
  fun s => .ret () { s with LED1_ThreadId := id }

/-- The last statement of `main`, an empty `while (1)`; `turns` bounds its observed turns. -/
def main_while : Nat → Code Unit
| 0 => outOfTurns
| turns + 1 => main_while turns

/-- The C function `main`; `turns` bounds the observed turns of each unbounded loop. -/
def main (env : Env) (turns : Nat) : Code Int := do
  MPU_Config
  CPU_CACHE_Enable
  let _ ← call .HAL_Init env.HAL_Init
  SystemClock_Config env turns
  call (.BSP_LED_Init .LED1) ()
  let _ ← call .BSP_SDRAM_Init env.BSP_SDRAM_Init
  if (← call .BSP_LCD_Init env.BSP_LCD_Init) ≠ .LCD_OK then Error_Handler turns
  call (.BSP_LCD_LayerDefaultInit .LTDC_ACTIVE_LAYER .LCD_FRAME_BUFFER) ()
  call (.BSP_LCD_SelectLayer .LTDC_ACTIVE_LAYER) ()
  call .BSP_LCD_DisplayOn ()
  call (.BSP_LCD_Clear .LCD_COLOR_BLACK) ()
  call (.BSP_LCD_SetTextColor .LCD_COLOR_GREEN) ()
  let x0 : Nat := 0
  let y0 : Nat := 0
  let x1 : Nat := u16 (u32sub (u32sub (← call .BSP_LCD_GetXSize env.BSP_LCD_GetXSize) 1) x0)
  let y1 : Nat := u16 (u32sub (u32sub (← call .BSP_LCD_GetYSize env.BSP_LCD_GetYSize) 1) y0)
  call (.BSP_LCD_DrawRect x0 y0 (u16sub x1 x0) (u16sub y1 y0)) ()
  call (.BSP_LCD_DrawLine x0 y0 x1 y1) ()
  call (.BSP_LCD_DrawLine x0 y1 x1 y0) ()
  let os_thread_def_LED1 : osThreadDef_t :=
    { name := "LED1"
      pthread := .LED_Thread1
      tpriority := .osPriorityNormal
      instances := 0
      stacksize := .configMINIMAL_STACK_SIZE }
  set_LED1_ThreadId (← call (.osThreadCreate os_thread_def_LED1 0) env.osThreadCreate)
  let _ ← callMayBlock .osKernelStart env.osKernelStart
  main_while turns
  pure 0

/-! ## `LED_Thread1` -/

/-- Modelled from the spec: the kernel current-tick query `osKernelSysTick` (the RTOS
wrapper is not part of the sources); it returns the kernel tick counter, a 32-bit value. -/
def osKernelSysTick : Code Nat :=
  fun s => .ret (s.tick % 2 ^ 32) { s with trace := s.trace ++ [.osKernelSysTick] }

/-- Modelled from the spec: the kernel absolute-delay primitive `osDelayUntil` (the RTOS
wrapper is not part of the sources). The task is suspended until the deadline
`*PreviousWakeTime + millisec`, and `*PreviousWakeTime` becomes that deadline, in 32-bit
tick arithmetic; the current tick is not sampled. The new value of `*PreviousWakeTime`
is returned; the task runs again `env.wakeLatency` ticks after the deadline. -/
def osDelayUntil (env : Env) (PreviousWakeTime : Nat) (millisec : Nat) : Code Nat :=
  fun s =>
    let deadline := (PreviousWakeTime + millisec) % 2 ^ 32
    .ret deadline
      { s with
        trace := s.trace ++ [.osDelayUntil PreviousWakeTime millisec]
        tick := (deadline + env.wakeLatency deadline) % 2 ^ 32 }

/-- The `for(;;)` loop of `LED_Thread1`, entered with the local `PreviousWakeTime`;
`turns` bounds its observed turns. -/
def LED_Thread1_for (env : Env) : Nat → Nat → Code Unit
| 0, _ => outOfTurns
| turns + 1, PreviousWakeTime => do
    let PreviousWakeTime ← osDelayUntil env PreviousWakeTime 1000
    call (.BSP_LED_Toggle .LED1) ()
    LED_Thread1_for env turns PreviousWakeTime

/-- The C function `LED_Thread1`; `turns` bounds the observed turns of its `for(;;)`. -/
def LED_Thread1 (env : Env) (turns : Nat) : Code Unit := do
  let PreviousWakeTime ← osKernelSysTick
  LED_Thread1_for env turns PreviousWakeTime

/-! ## Concrete environments -/

/-- An environment in which every call succeeds, on a 480 x 272 panel. -/
def healthyEnv : Env :=
  { HAL_Init := .HAL_OK
    HAL_RCC_OscConfig := .HAL_OK
    HAL_PWREx_ActivateOverDrive := .HAL_OK
    HAL_RCC_ClockConfig := .HAL_OK
    BSP_SDRAM_Init := 0
    BSP_LCD_Init := .LCD_OK
    BSP_LCD_GetXSize := 480
    BSP_LCD_GetYSize := 272
    osThreadCreate := 0x20001000
    osKernelStart := none
    wakeLatency := fun _ => 0 }

/-- The healthy environment, except that `BSP_LCD_Init` reports an error. -/
def lcdAbsentEnv : Env :=
  { healthyEnv with BSP_LCD_Init := .LCD_ERROR }

/-- The healthy environment, except that `HAL_Init` reports an error. -/
def halInitFailEnv : Env :=
  { healthyEnv with HAL_Init := .HAL_ERROR }

/-- The healthy environment, except that `osThreadCreate` returns the null identifier. -/
def threadNullEnv : Env :=
  { healthyEnv with osThreadCreate := 0 }

/-! ## Expected calls and specification-side definitions -/

/-- The seven actions of one turn of the fault pattern. -/
def faultBlock : List Event :=
  [.BSP_LED_Toggle .LED1, .HAL_Delay 100, .BSP_LED_Toggle .LED1, .HAL_Delay 100,
   .BSP_LED_Toggle .LED1, .HAL_Delay 100, .HAL_Delay 500]

/-- The fault pattern: `k` copies of `faultBlock`. -/
def faultPattern (k : Nat) : List Event :=
  (List.replicate k faultBlock).flatten

/-- The region record that `MPU_Config` is expected to program. -/
def region0 : MPU_Region_InitTypeDef :=
  { Enable := .MPU_REGION_ENABLE
    BaseAddress := 0x20010000
    Size := .MPU_REGION_SIZE_256KB
    AccessPermission := .MPU_REGION_FULL_ACCESS
    IsBufferable := .MPU_ACCESS_NOT_BUFFERABLE
    IsCacheable := .MPU_ACCESS_CACHEABLE
    IsShareable := .MPU_ACCESS_NOT_SHAREABLE
    Number := .MPU_REGION_NUMBER0
    TypeExtField := .MPU_TEX_LEVEL0
    SubRegionDisable := 0
    DisableExec := .MPU_INSTRUCTION_ACCESS_ENABLE }

/-- The oscillator record that `SystemClock_Config` is expected to program. -/
def oscPlan : RCC_OscInitTypeDef :=
  { OscillatorType := .RCC_OSCILLATORTYPE_HSE
    HSEState := .RCC_HSE_ON
    PLL :=
      { PLLState := .RCC_PLL_ON
        PLLSource := .RCC_PLLSOURCE_HSE
        PLLM := 25
        PLLN := 400
        PLLP := .RCC_PLLP_DIV2
        PLLQ := 8 } }

/-- The bus clock record that `SystemClock_Config` is expected to program. -/
def clkPlan : RCC_ClkInitTypeDef :=
  { ClockType := [.RCC_CLOCKTYPE_SYSCLK, .RCC_CLOCKTYPE_HCLK, .RCC_CLOCKTYPE_PCLK1,
      .RCC_CLOCKTYPE_PCLK2]
    SYSCLKSource := .RCC_SYSCLKSOURCE_PLLCLK
    AHBCLKDivider := .RCC_SYSCLK_DIV1
    APB1CLKDivider := .RCC_HCLK_DIV4
    APB2CLKDivider := .RCC_HCLK_DIV2 }

/-- The calls of the MPU policy step. -/
def mpuCalls : List Event :=
  [.HAL_MPU_Disable, .HAL_MPU_ConfigRegion region0, .HAL_MPU_Enable .MPU_PRIVILEGED_DEFAULT]

/-- The calls of the cache enable step. -/
def cacheCalls : List Event :=
  [.SCB_EnableICache, .SCB_EnableDCache]

/-- The calls of the clock tree step when none of them fails. -/
def clockCalls : List Event :=
  [.__HAL_RCC_PWR_CLK_ENABLE,
   .__HAL_PWR_VOLTAGESCALING_CONFIG .PWR_REGULATOR_VOLTAGE_SCALE1,
   .HAL_RCC_OscConfig oscPlan,
   .HAL_PWREx_ActivateOverDrive,
   .HAL_RCC_ClockConfig clkPlan .FLASH_LATENCY_5]

/-- The calls of the board bring-up step when the LCD initialises; the coordinates of
the test frame come from the panel size the environment reports. -/
def boardCalls (env : Env) : List Event :=
  [.BSP_LED_Init .LED1,
   .BSP_SDRAM_Init,
   .BSP_LCD_Init,
   .BSP_LCD_LayerDefaultInit .LTDC_ACTIVE_LAYER .LCD_FRAME_BUFFER,
   .BSP_LCD_SelectLayer .LTDC_ACTIVE_LAYER,
   .BSP_LCD_DisplayOn,
   .BSP_LCD_Clear .LCD_COLOR_BLACK,
   .BSP_LCD_SetTextColor .LCD_COLOR_GREEN,
   .BSP_LCD_GetXSize,
   .BSP_LCD_GetYSize,
   .BSP_LCD_DrawRect 0 0
      (u16sub (u16 (u32sub (u32sub env.BSP_LCD_GetXSize 1) 0)) 0)
      (u16sub (u16 (u32sub (u32sub env.BSP_LCD_GetYSize 1) 0)) 0),
   .BSP_LCD_DrawLine 0 0
      (u16 (u32sub (u32sub env.BSP_LCD_GetXSize 1) 0))
      (u16 (u32sub (u32sub env.BSP_LCD_GetYSize 1) 0)),
   .BSP_LCD_DrawLine 0
      (u16 (u32sub (u32sub env.BSP_LCD_GetYSize 1) 0))
      (u16 (u32sub (u32sub env.BSP_LCD_GetXSize 1) 0)) 0]

/-- The thread record that `osThreadDef(LED1, ...)` is expected to define. -/
def os_thread_def_LED1 : osThreadDef_t :=
  { name := "LED1"
    pthread := .LED_Thread1
    tpriority := .osPriorityNormal
    instances := 0
    stacksize := .configMINIMAL_STACK_SIZE }

/-- The calls that register the periodic task and start the scheduler. -/
def taskCalls : List Event :=
  [.osThreadCreate os_thread_def_LED1 0, .osKernelStart]

/-- All the calls of a boot in which no checked call fails, in order. -/
def bootCalls (env : Env) : List Event :=
  mpuCalls ++ cacheCalls ++ [.HAL_Init] ++ clockCalls ++ boardCalls env ++ taskCalls

/-- Whether a call is one whose status `main.c` tests and the environment makes fail. -/
def checkedFailure (env : Env) : Event → Bool
| .HAL_RCC_OscConfig _ => decide (env.HAL_RCC_OscConfig ≠ .HAL_OK)
| .HAL_PWREx_ActivateOverDrive => decide (env.HAL_PWREx_ActivateOverDrive ≠ .HAL_OK)
| .HAL_RCC_ClockConfig _ _ => decide (env.HAL_RCC_ClockConfig ≠ .HAL_OK)
| .BSP_LCD_Init => decide (env.BSP_LCD_Init ≠ .LCD_OK)
| _ => false

/-- Whether a call hands work to the RTOS: `osThreadCreate` or `osKernelStart`. -/
def isRtosStart : Event → Bool
| .osThreadCreate _ _ => true
| .osKernelStart => true
| _ => false

/-- Whether a call belongs to the fault indicator: a toggle of the LED or a delay. -/
def isFaultAction : Event → Bool
| .BSP_LED_Toggle _ => true
| .HAL_Delay _ => true
| _ => false

/-- In the list `l`, an occurrence of `a` comes before an occurrence of `b`. -/
def Before (a b : Event) (l : List Event) : Prop :=
  ∃ l1 l2 l3, l = l1 ++ a :: l2 ++ b :: l3

/-- The regions handed to `HAL_MPU_ConfigRegion` in a list of calls, in order. -/
def programmedRegions (l : List Event) : List MPU_Region_InitTypeDef :=
  l.filterMap fun e =>
    match e with
    | .HAL_MPU_ConfigRegion r => some r
    | _ => none

/-- Modelled from the spec: the invariant of the region records, "base is aligned to
size; region index is unique": every base address is a multiple of the region size in
bytes, and no two regions carry the same index. -/
def MpuRegionSpec_invariant (rs : List MPU_Region_InitTypeDef) : Prop :=
  (∀ r ∈ rs, r.BaseAddress % r.Size.bytes = 0) ∧ (rs.map fun r => r.Number.index).Nodup

/-- The deadline a call of `osDelayUntil` asks to be suspended until: the previous wake
time plus the period, in 32-bit tick arithmetic. -/
def requestedDeadline : Event → Option Nat
| .osDelayUntil PreviousWakeTime millisec => some ((PreviousWakeTime + millisec) % 2 ^ 32)
| _ => none

/-- The calls of `n` turns of the loop of `LED_Thread1` entered with previous wake time
`prev`. -/
def ledCallsFrom : Nat → Nat → List Event
| _, 0 => []
| prev, n + 1 =>
  [.osDelayUntil prev 1000, .BSP_LED_Toggle .LED1] ++ ledCallsFrom ((prev + 1000) % 2 ^ 32) n

/-! ## Basic facts about sequencing -/

@[simp] theorem bind_apply {α β : Type} (x : Code α) (f : α → Code β) (s : State) :
    (x >>= f) s = Code.bind x f s := rfl

@[simp] theorem codeBind_unfold {α β : Type} (x : Code α) (f : α → Code β) (s : State) :
    Code.bind x f s = (match x s with
      | .ret a s1 => f a s1
      | .noret s1 => .noret s1) := rfl

@[simp] theorem pure_apply {α : Type} (a : α) (s : State) :
    (Pure.pure a : Code α) s = .ret a s := rfl

@[simp] theorem call_apply {α : Type} (e : Event) (r : α) (s : State) :
    call e r s = .ret r { s with trace := s.trace ++ [e] } := rfl

@[simp] theorem outOfTurns_apply {α : Type} (s : State) :
    (outOfTurns : Code α) s = .noret s := rfl

/-! ## The fault pattern -/

theorem Error_Handler_for_three (s : State) :
    Error_Handler_for 0 s = .ret ()
      { s with trace := s.trace ++ [.BSP_LED_Toggle .LED1, .HAL_Delay 100,
          .BSP_LED_Toggle .LED1, .HAL_Delay 100, .BSP_LED_Toggle .LED1, .HAL_Delay 100] } := by
  rw [Error_Handler_for]
  simp
  rw [Error_Handler_for]
  simp
  rw [Error_Handler_for]
  simp
  rw [Error_Handler_for]
  simp

theorem Error_Handler_eq (k : Nat) (s : State) :
    Error_Handler k s = .noret { s with trace := s.trace ++ faultPattern k } := by
  induction k generalizing s with
  | zero => simp [Error_Handler, faultPattern]
  | succ k ih =>
    rw [Error_Handler]
    simp [Error_Handler_for_three, ih, faultPattern, List.replicate_succ, faultBlock]

theorem faultPattern_succ (k : Nat) :
    faultPattern (k + 1) = faultBlock ++ faultPattern k := by
  simp [faultPattern, List.replicate_succ]

theorem faultPattern_length (k : Nat) : (faultPattern k).length = 7 * k := by
  induction k with
  | zero => rfl
  | succ k ih =>
    rw [faultPattern_succ, List.length_append, ih]
    have h : faultBlock.length = 7 := rfl
    omega

theorem faultPattern_add (k j : Nat) :
    faultPattern (k + j) = faultPattern k ++ faultPattern j := by
  induction k with
  | zero => simp [faultPattern]
  | succ k ih =>
    rw [Nat.add_right_comm, faultPattern_succ, ih, faultPattern_succ, List.append_assoc]

/-! ## The steps of the boot -/

theorem MPU_Config_eq (s : State) :
    MPU_Config s = .ret () { s with trace := s.trace ++ mpuCalls } := by
  simp [MPU_Config, mpuCalls, region0]

theorem CPU_CACHE_Enable_eq (s : State) :
    CPU_CACHE_Enable s = .ret () { s with trace := s.trace ++ cacheCalls } := by
  simp [CPU_CACHE_Enable, cacheCalls]

theorem SystemClock_Config_ok (env : Env) (turns : Nat) (s : State)
    (hosc : env.HAL_RCC_OscConfig = .HAL_OK)
    (hod : env.HAL_PWREx_ActivateOverDrive = .HAL_OK)
    (hclk : env.HAL_RCC_ClockConfig = .HAL_OK) :
    SystemClock_Config env turns s = .ret () { s with trace := s.trace ++ clockCalls } := by
  simp [SystemClock_Config, clockCalls, oscPlan, clkPlan, hosc, hod, hclk]

theorem SystemClock_Config_osc (env : Env) (turns : Nat) (s : State)
    (hosc : env.HAL_RCC_OscConfig ≠ .HAL_OK) :
    SystemClock_Config env turns s =
      .noret { s with trace := s.trace ++ clockCalls.take 3 ++ faultPattern turns } := by
  simp [SystemClock_Config, clockCalls, oscPlan, hosc, Error_Handler_eq]

theorem SystemClock_Config_od (env : Env) (turns : Nat) (s : State)
    (hosc : env.HAL_RCC_OscConfig = .HAL_OK)
    (hod : env.HAL_PWREx_ActivateOverDrive ≠ .HAL_OK) :
    SystemClock_Config env turns s =
      .noret { s with trace := s.trace ++ clockCalls.take 4 ++ faultPattern turns } := by
  simp [SystemClock_Config, clockCalls, oscPlan, hosc, hod, Error_Handler_eq]

theorem SystemClock_Config_clk (env : Env) (turns : Nat) (s : State)
    (hosc : env.HAL_RCC_OscConfig = .HAL_OK)
    (hod : env.HAL_PWREx_ActivateOverDrive = .HAL_OK)
    (hclk : env.HAL_RCC_ClockConfig ≠ .HAL_OK) :
    SystemClock_Config env turns s =
      .noret { s with trace := s.trace ++ clockCalls ++ faultPattern turns } := by
  simp [SystemClock_Config, clockCalls, oscPlan, clkPlan, hosc, hod, hclk, Error_Handler_eq]

theorem main_while_eq (turns : Nat) (s : State) : main_while turns s = .noret s := by
  induction turns with
  | zero => rfl
  | succ n ih => simpa [main_while] using ih

theorem main_healthy (env : Env) (turns : Nat) (s : State)
    (hosc : env.HAL_RCC_OscConfig = .HAL_OK)
    (hod : env.HAL_PWREx_ActivateOverDrive = .HAL_OK)
    (hclk : env.HAL_RCC_ClockConfig = .HAL_OK)
    (hlcd : env.BSP_LCD_Init = .LCD_OK) :
    main env turns s =
      .noret { trace := s.trace ++ bootCalls env
               LED1_ThreadId := env.osThreadCreate
               tick := s.tick } := by
  obtain ⟨tr, id, tk⟩ := s
  unfold main
  simp only [bind_apply, codeBind_unfold, MPU_Config_eq, CPU_CACHE_Enable_eq, call_apply,
    SystemClock_Config_ok env turns _ hosc hod hclk, hlcd, ne_eq, not_true_eq_false, ite_false,
    pure_apply, set_LED1_ThreadId, if_false]
  cases hk : env.osKernelStart <;>
    simp [callMayBlock, main_while_eq, bootCalls, mpuCalls, cacheCalls,
      clockCalls, boardCalls, taskCalls, os_thread_def_LED1]

theorem main_osc_fail (env : Env) (turns : Nat) (s : State)
    (hosc : env.HAL_RCC_OscConfig ≠ .HAL_OK) :
    main env turns s =
      .noret { s with trace := s.trace ++
        (mpuCalls ++ cacheCalls ++ [.HAL_Init] ++ clockCalls.take 3) ++ faultPattern turns } := by
  obtain ⟨tr, id, tk⟩ := s
  unfold main
  simp only [bind_apply, codeBind_unfold, MPU_Config_eq, CPU_CACHE_Enable_eq, call_apply,
    SystemClock_Config_osc env turns _ hosc]
  simp

theorem main_od_fail (env : Env) (turns : Nat) (s : State)
    (hosc : env.HAL_RCC_OscConfig = .HAL_OK)
    (hod : env.HAL_PWREx_ActivateOverDrive ≠ .HAL_OK) :
    main env turns s =
      .noret { s with trace := s.trace ++
        (mpuCalls ++ cacheCalls ++ [.HAL_Init] ++ clockCalls.take 4) ++ faultPattern turns } := by
  obtain ⟨tr, id, tk⟩ := s
  unfold main
  simp only [bind_apply, codeBind_unfold, MPU_Config_eq, CPU_CACHE_Enable_eq, call_apply,
    SystemClock_Config_od env turns _ hosc hod]
  simp

theorem main_clk_fail (env : Env) (turns : Nat) (s : State)
    (hosc : env.HAL_RCC_OscConfig = .HAL_OK)
    (hod : env.HAL_PWREx_ActivateOverDrive = .HAL_OK)
    (hclk : env.HAL_RCC_ClockConfig ≠ .HAL_OK) :
    main env turns s =
      .noret { s with trace := s.trace ++
        (mpuCalls ++ cacheCalls ++ [.HAL_Init] ++ clockCalls) ++ faultPattern turns } := by
  obtain ⟨tr, id, tk⟩ := s
  unfold main
  simp only [bind_apply, codeBind_unfold, MPU_Config_eq, CPU_CACHE_Enable_eq, call_apply,
    SystemClock_Config_clk env turns _ hosc hod hclk]
  simp

theorem main_lcd_fail (env : Env) (turns : Nat) (s : State)
    (hosc : env.HAL_RCC_OscConfig = .HAL_OK)
    (hod : env.HAL_PWREx_ActivateOverDrive = .HAL_OK)
    (hclk : env.HAL_RCC_ClockConfig = .HAL_OK)
    (hlcd : env.BSP_LCD_Init ≠ .LCD_OK) :
    main env turns s =
      .noret { s with trace := s.trace ++
        (mpuCalls ++ cacheCalls ++ [.HAL_Init] ++ clockCalls ++ (boardCalls env).take 3) ++
          faultPattern turns } := by
  obtain ⟨tr, id, tk⟩ := s
  unfold main
  simp only [bind_apply, codeBind_unfold, MPU_Config_eq, CPU_CACHE_Enable_eq, call_apply,
    SystemClock_Config_ok env turns _ hosc hod hclk, hlcd, ne_eq, not_false_eq_true, ite_true,
    if_true, Error_Handler_eq]
  simp [boardCalls]

theorem faultPattern_isFaultAction (k : Nat) :
    ∀ e ∈ faultPattern k, isFaultAction e = true := by
  induction k with
  | zero => simp [faultPattern]
  | succ k ih =>
    intro e he
    rw [faultPattern_succ, List.mem_append] at he
    rcases he with he | he
    · simp only [faultBlock, List.mem_cons, List.mem_singleton, List.not_mem_nil,
        or_false] at he
      rcases he with rfl | rfl | rfl | rfl | rfl | rfl | rfl <;> rfl
    · exact ih e he

/-! ## Boot order and fault paths -/

/-- C1: when the four checked vendor calls succeed, `main` does not return and the
calls it issues are, in this exact order, those of `MPU_Config` (disable, configure
region, enable), of `CPU_CACHE_Enable` (I-cache, D-cache), `HAL_Init`, those of
`SystemClock_Config`, those of the board bring-up, `osThreadCreate`, `osKernelStart`;
in particular `HAL_MPU_Enable` comes before both cache enables and the I-cache enable
before the D-cache enable. -/
theorem C1_boot_call_order (env : Env) (turns : Nat) (s : State)
    (hosc : env.HAL_RCC_OscConfig = .HAL_OK)
    (hod : env.HAL_PWREx_ActivateOverDrive = .HAL_OK)
    (hclk : env.HAL_RCC_ClockConfig = .HAL_OK)
    (hlcd : env.BSP_LCD_Init = .LCD_OK) :
    (main env turns s).returned = false ∧
    (main env turns s).state.trace = s.trace ++
      ([.HAL_MPU_Disable, .HAL_MPU_ConfigRegion region0,
        .HAL_MPU_Enable .MPU_PRIVILEGED_DEFAULT] ++
       [.SCB_EnableICache, .SCB_EnableDCache] ++
       [.HAL_Init] ++
       clockCalls ++
       boardCalls env ++
       [.osThreadCreate os_thread_def_LED1 0, .osKernelStart]) ∧
    Before (.HAL_MPU_Enable .MPU_PRIVILEGED_DEFAULT) .SCB_EnableICache
      ((main env turns s).state.trace.drop s.trace.length) ∧
    Before (.HAL_MPU_Enable .MPU_PRIVILEGED_DEFAULT) .SCB_EnableDCache
      ((main env turns s).state.trace.drop s.trace.length) ∧
    Before .SCB_EnableICache .SCB_EnableDCache
      ((main env turns s).state.trace.drop s.trace.length) := by
  have hm := main_healthy env turns s hosc hod hclk hlcd
  have htr : (main env turns s).state.trace = s.trace ++ bootCalls env := by
    rw [hm]
    rfl
  refine ⟨?_, htr, ?_, ?_, ?_⟩
  · rw [hm]
    rfl
  · rw [htr, List.drop_left]
    exact ⟨[.HAL_MPU_Disable, .HAL_MPU_ConfigRegion region0], [], _, rfl⟩
  · rw [htr, List.drop_left]
    exact ⟨[.HAL_MPU_Disable, .HAL_MPU_ConfigRegion region0], [.SCB_EnableICache], _, rfl⟩
  · rw [htr, List.drop_left]
    exact ⟨mpuCalls, [], _, rfl⟩

/-- C1, at the environment in which every call succeeds. -/
theorem C1_boot_call_order_witness :
    (main healthyEnv 2 reset).returned = false ∧
    (main healthyEnv 2 reset).state.trace = reset.trace ++
      ([.HAL_MPU_Disable, .HAL_MPU_ConfigRegion region0,
        .HAL_MPU_Enable .MPU_PRIVILEGED_DEFAULT] ++
       [.SCB_EnableICache, .SCB_EnableDCache] ++
       [.HAL_Init] ++
       clockCalls ++
       boardCalls healthyEnv ++
       [.osThreadCreate os_thread_def_LED1 0, .osKernelStart]) ∧
    Before (.HAL_MPU_Enable .MPU_PRIVILEGED_DEFAULT) .SCB_EnableICache
      ((main healthyEnv 2 reset).state.trace.drop reset.trace.length) ∧
    Before (.HAL_MPU_Enable .MPU_PRIVILEGED_DEFAULT) .SCB_EnableDCache
      ((main healthyEnv 2 reset).state.trace.drop reset.trace.length) ∧
    Before .SCB_EnableICache .SCB_EnableDCache
      ((main healthyEnv 2 reset).state.trace.drop reset.trace.length) :=
  C1_boot_call_order healthyEnv 2 reset rfl rfl rfl rfl

/-- C2: whatever statuses the vendor calls return, if one of `HAL_RCC_OscConfig`,
`HAL_PWREx_ActivateOverDrive`, `HAL_RCC_ClockConfig`, `BSP_LCD_Init` returns a
non-success, then `main` does not return, and the calls it issues are the calls of
the boot order up to and including the first such failing call `e`, followed by the
fault pattern of `Error_Handler` and nothing else: no later step is executed, and
neither `osThreadCreate` nor `osKernelStart` is called. -/
theorem C2_checked_failure_enters_Error_Handler (env : Env) (turns : Nat) (s : State)
    (h : env.HAL_RCC_OscConfig ≠ .HAL_OK ∨ env.HAL_PWREx_ActivateOverDrive ≠ .HAL_OK ∨
      env.HAL_RCC_ClockConfig ≠ .HAL_OK ∨ env.BSP_LCD_Init ≠ .LCD_OK) :
    ∃ pre e post,
      bootCalls env = pre ++ e :: post ∧
      checkedFailure env e = true ∧
      (∀ x ∈ pre, checkedFailure env x = false) ∧
      main env turns s =
        .noret { s with trace := s.trace ++ (pre ++ [e]) ++ faultPattern turns } ∧
      (∀ x ∈ (main env turns s).state.trace.drop s.trace.length, isRtosStart x = false) := by
  have hfault : ∀ l : List Event, (∀ x ∈ l, isRtosStart x = false) →
      ∀ x ∈ l ++ faultPattern turns, isRtosStart x = false := by
    intro l hl x hx
    rcases List.mem_append.1 hx with hx | hx
    · exact hl x hx
    · have := faultPattern_isFaultAction turns x hx
      cases x <;> simp_all [isFaultAction, isRtosStart]
  by_cases hosc : env.HAL_RCC_OscConfig = .HAL_OK
  · by_cases hod : env.HAL_PWREx_ActivateOverDrive = .HAL_OK
    · by_cases hclk : env.HAL_RCC_ClockConfig = .HAL_OK
      · have hlcd : env.BSP_LCD_Init ≠ .LCD_OK := by
          rcases h with h | h | h | h
          · exact absurd hosc h
          · exact absurd hod h
          · exact absurd hclk h
          · exact h
        refine ⟨mpuCalls ++ cacheCalls ++ [.HAL_Init] ++ clockCalls ++ (boardCalls env).take 2,
          .BSP_LCD_Init, (boardCalls env).drop 3 ++ taskCalls, ?_, ?_, ?_, ?_, ?_⟩
        · simp [bootCalls, boardCalls]
        · simp [checkedFailure, hlcd]
        · intro x hx
          simp [mpuCalls, cacheCalls, clockCalls, boardCalls] at hx
          rcases hx with rfl | rfl | rfl | rfl | rfl | rfl | rfl | rfl | rfl | rfl | rfl |
            rfl | rfl <;> simp [checkedFailure, hosc, hod, hclk]
        · rw [main_lcd_fail env turns s hosc hod hclk hlcd]
          simp [boardCalls]
        · rw [main_lcd_fail env turns s hosc hod hclk hlcd]
          simp only [Outcome.state, List.append_assoc, List.drop_left]
          simp only [← List.append_assoc]
          apply hfault
          intro x hx
          simp [mpuCalls, cacheCalls, clockCalls, boardCalls] at hx
          rcases hx with rfl | rfl | rfl | rfl | rfl | rfl | rfl | rfl | rfl | rfl | rfl |
            rfl | rfl | rfl <;> rfl
      · refine ⟨mpuCalls ++ cacheCalls ++ [.HAL_Init] ++ clockCalls.take 4,
          .HAL_RCC_ClockConfig clkPlan .FLASH_LATENCY_5, boardCalls env ++ taskCalls,
          ?_, ?_, ?_, ?_, ?_⟩
        · simp [bootCalls, clockCalls]
        · simp [checkedFailure, hclk]
        · intro x hx
          simp [mpuCalls, cacheCalls, clockCalls] at hx
          rcases hx with rfl | rfl | rfl | rfl | rfl | rfl | rfl | rfl | rfl | rfl <;>
            simp [checkedFailure, hosc, hod]
        · rw [main_clk_fail env turns s hosc hod hclk]
          simp [clockCalls]
        · rw [main_clk_fail env turns s hosc hod hclk]
          simp only [Outcome.state, List.append_assoc, List.drop_left]
          simp only [← List.append_assoc]
          apply hfault
          intro x hx
          simp [mpuCalls, cacheCalls, clockCalls] at hx
          rcases hx with rfl | rfl | rfl | rfl | rfl | rfl | rfl | rfl | rfl | rfl | rfl <;> rfl
    · refine ⟨mpuCalls ++ cacheCalls ++ [.HAL_Init] ++ clockCalls.take 3,
        .HAL_PWREx_ActivateOverDrive, clockCalls.drop 4 ++ boardCalls env ++ taskCalls,
        ?_, ?_, ?_, ?_, ?_⟩
      · simp [bootCalls, clockCalls]
      · simp [checkedFailure, hod]
      · intro x hx
        simp [mpuCalls, cacheCalls, clockCalls] at hx
        rcases hx with rfl | rfl | rfl | rfl | rfl | rfl | rfl | rfl | rfl <;>
          simp [checkedFailure, hosc]
      · rw [main_od_fail env turns s hosc hod]
        simp [clockCalls]
      · rw [main_od_fail env turns s hosc hod]
        simp only [Outcome.state, List.append_assoc, List.drop_left]
        simp only [← List.append_assoc]
        apply hfault
        intro x hx
        simp [mpuCalls, cacheCalls, clockCalls] at hx
        rcases hx with rfl | rfl | rfl | rfl | rfl | rfl | rfl | rfl | rfl | rfl <;> rfl
  · refine ⟨mpuCalls ++ cacheCalls ++ [.HAL_Init] ++ clockCalls.take 2,
      .HAL_RCC_OscConfig oscPlan, clockCalls.drop 3 ++ boardCalls env ++ taskCalls,
      ?_, ?_, ?_, ?_, ?_⟩
    · simp [bootCalls, clockCalls]
    · simp [checkedFailure, hosc]
    · intro x hx
      simp [mpuCalls, cacheCalls, clockCalls] at hx
      rcases hx with rfl | rfl | rfl | rfl | rfl | rfl | rfl | rfl <;> simp [checkedFailure]
    · rw [main_osc_fail env turns s hosc]
      simp [clockCalls]
    · rw [main_osc_fail env turns s hosc]
      simp only [Outcome.state, List.append_assoc, List.drop_left]
      simp only [← List.append_assoc]
      apply hfault
      intro x hx
      simp [mpuCalls, cacheCalls, clockCalls] at hx
      rcases hx with rfl | rfl | rfl | rfl | rfl | rfl | rfl | rfl | rfl <;> rfl

/-- C2, at the environment in which only `BSP_LCD_Init` fails. -/
theorem C2_checked_failure_enters_Error_Handler_witness :
    (lcdAbsentEnv.HAL_RCC_OscConfig ≠ .HAL_OK ∨
      lcdAbsentEnv.HAL_PWREx_ActivateOverDrive ≠ .HAL_OK ∨
      lcdAbsentEnv.HAL_RCC_ClockConfig ≠ .HAL_OK ∨ lcdAbsentEnv.BSP_LCD_Init ≠ .LCD_OK) ∧
    ∃ pre e post,
      bootCalls lcdAbsentEnv = pre ++ e :: post ∧
      checkedFailure lcdAbsentEnv e = true ∧
      (∀ x ∈ pre, checkedFailure lcdAbsentEnv x = false) ∧
      main lcdAbsentEnv 2 reset =
        .noret { reset with trace := reset.trace ++ (pre ++ [e]) ++ faultPattern 2 } ∧
      (∀ x ∈ (main lcdAbsentEnv 2 reset).state.trace.drop reset.trace.length,
        isRtosStart x = false) :=
  ⟨Or.inr (Or.inr (Or.inr (by decide))),
    C2_checked_failure_enters_Error_Handler lcdAbsentEnv 2 reset
      (Or.inr (Or.inr (Or.inr (by decide))))⟩

/-! ## The fault indicator -/

/-- C4: `Error_Handler` never returns, and the actions it emits are the repetition of
the block toggle, 100 ms, toggle, 100 ms, toggle, 100 ms, 500 ms: observed for `k`
turns of its loop it has emitted exactly `k` copies of that block, and however much
longer it is observed (`k + j` turns), the first `7 * k` actions it emits are those
`k` copies. -/
theorem C4_Error_Handler_pattern (k j : Nat) (s : State) :
    (Error_Handler k s).returned = false ∧
    (Error_Handler k s).state = { s with trace := s.trace ++
      (List.replicate k
        [Event.BSP_LED_Toggle .LED1, .HAL_Delay 100, .BSP_LED_Toggle .LED1, .HAL_Delay 100,
         .BSP_LED_Toggle .LED1, .HAL_Delay 100, .HAL_Delay 500]).flatten } ∧
    (((Error_Handler (k + j) s).state.trace.drop s.trace.length).take (7 * k) =
      (List.replicate k
        [Event.BSP_LED_Toggle .LED1, .HAL_Delay 100, .BSP_LED_Toggle .LED1, .HAL_Delay 100,
         .BSP_LED_Toggle .LED1, .HAL_Delay 100, .HAL_Delay 500]).flatten) := by
  refine ⟨?_, ?_, ?_⟩
  · rw [Error_Handler_eq]
    rfl
  · rw [Error_Handler_eq]
    rfl
  · rw [Error_Handler_eq, faultPattern_add]
    simp only [Outcome.state, List.drop_left]
    rw [← faultPattern_length k, List.take_left]
    rfl

/-! ## The MPU policy -/

/-- C6: `MPU_Config` returns after issuing exactly three MPU operations, in this order:
`HAL_MPU_Disable`, one `HAL_MPU_ConfigRegion`, `HAL_MPU_Enable` with the
privileged-default background policy; the region it programs is region number 0,
enabled, base 0x20010000, size code 256 KiB, full access, cacheable, not bufferable,
not shareable, instruction access enabled, type-extension level 0, sub-region disable
bitmap 0x00. -/
theorem C6_MPU_Config_calls (s : State) :
    MPU_Config s = .ret () { s with trace := s.trace ++
      [.HAL_MPU_Disable,
       .HAL_MPU_ConfigRegion
         { Enable := .MPU_REGION_ENABLE
           BaseAddress := 0x20010000
           Size := .MPU_REGION_SIZE_256KB
           AccessPermission := .MPU_REGION_FULL_ACCESS
           IsBufferable := .MPU_ACCESS_NOT_BUFFERABLE
           IsCacheable := .MPU_ACCESS_CACHEABLE
           IsShareable := .MPU_ACCESS_NOT_SHAREABLE
           Number := .MPU_REGION_NUMBER0
           TypeExtField := .MPU_TEX_LEVEL0
           SubRegionDisable := 0x00
           DisableExec := .MPU_INSTRUCTION_ACCESS_ENABLE },
       .HAL_MPU_Enable .MPU_PRIVILEGED_DEFAULT] } ∧
    MpuRegionNumber.index .MPU_REGION_NUMBER0 = 0 ∧
    MpuRegionSize.bytes .MPU_REGION_SIZE_256KB = 256 * 1024 ∧
    MpuTex.level .MPU_TEX_LEVEL0 = 0 := by
  refine ⟨?_, rfl, rfl, rfl⟩
  rw [MPU_Config_eq]
  rfl

/-- C9 as stated fails: the region that `MPU_Config` programs does not satisfy the
invariant, since its base 0x20010000 is not a multiple of its size 0x40000. -/
theorem C9_counterexample :
    ¬ MpuRegionSpec_invariant (programmedRegions (MPU_Config reset).state.trace) := by
  rw [MPU_Config_eq]
  simp [MpuRegionSpec_invariant, programmedRegions, Outcome.state, reset, mpuCalls, region0,
    MpuRegionSize.bytes]

/-- C9, amended: `MPU_Config` programs exactly one region, so its region index (0) is
unique among the programmed regions; its base 0x20010000 is a multiple of 64 KiB
(0x10000), and leaves the remainder 0x10000 when divided by the region size 256 KiB
(0x40000). -/
theorem C9_region_index_unique_base_64K_aligned (s : State) :
    programmedRegions ((MPU_Config s).state.trace.drop s.trace.length) = [region0] ∧
    ((programmedRegions ((MPU_Config s).state.trace.drop s.trace.length)).map
      fun r => r.Number.index).Nodup ∧
    region0.Number.index = 0 ∧
    region0.BaseAddress = 0x20010000 ∧
    region0.Size.bytes = 0x40000 ∧
    region0.BaseAddress % 0x10000 = 0 ∧
    region0.BaseAddress % region0.Size.bytes = 0x10000 := by
  rw [MPU_Config_eq]
  simp [programmedRegions, Outcome.state, mpuCalls, region0, MpuRegionSize.bytes,
    MpuRegionNumber.index]

/-! ## The clock tree -/

/-- C7 as stated fails: with `HAL_Init` returning an error and every other call
succeeding, `main` goes on to `HAL_RCC_OscConfig`, `osThreadCreate` and
`osKernelStart`, and issues no action of the fault indicator. -/
theorem C7_counterexample :
    halInitFailEnv.HAL_Init ≠ .HAL_OK ∧
    Event.HAL_RCC_OscConfig oscPlan ∈ (main halInitFailEnv 3 reset).state.trace ∧
    Event.osThreadCreate os_thread_def_LED1 0 ∈ (main halInitFailEnv 3 reset).state.trace ∧
    Event.osKernelStart ∈ (main halInitFailEnv 3 reset).state.trace ∧
    (∀ e ∈ (main halInitFailEnv 3 reset).state.trace, isFaultAction e = false) := by
  rw [main_healthy halInitFailEnv 3 reset rfl rfl rfl rfl]
  refine ⟨by decide, ?_, ?_, ?_, ?_⟩ <;>
    simp [Outcome.state, reset, bootCalls, mpuCalls, cacheCalls, clockCalls, boardCalls,
      taskCalls, isFaultAction]

/-- C7, amended: `main` does not test the status `HAL_Init` returns. Whatever that
status is, the run of `main` is the same as with any other status of `HAL_Init`, and
the call issued right after `HAL_Init` is the first call of `SystemClock_Config`. -/
theorem C7_HAL_Init_status_ignored (env : Env) (st : HAL_StatusTypeDef) (turns : Nat)
    (s : State) :
    main { env with HAL_Init := st } turns s = main env turns s ∧
    ∃ rest, (main env turns s).state.trace = s.trace ++
      (mpuCalls ++ cacheCalls ++ [.HAL_Init, .__HAL_RCC_PWR_CLK_ENABLE] ++ rest) := by
  constructor
  · rfl
  · by_cases hosc : env.HAL_RCC_OscConfig = .HAL_OK
    · by_cases hod : env.HAL_PWREx_ActivateOverDrive = .HAL_OK
      · by_cases hclk : env.HAL_RCC_ClockConfig = .HAL_OK
        · by_cases hlcd : env.BSP_LCD_Init = .LCD_OK
          · rw [main_healthy env turns s hosc hod hclk hlcd]
            exact ⟨clockCalls.drop 1 ++ boardCalls env ++ taskCalls, by
              simp [Outcome.state, bootCalls, clockCalls]⟩
          · rw [main_lcd_fail env turns s hosc hod hclk hlcd]
            exact ⟨clockCalls.drop 1 ++ (boardCalls env).take 3 ++ faultPattern turns, by
              simp [Outcome.state, clockCalls]⟩
        · rw [main_clk_fail env turns s hosc hod hclk]
          exact ⟨clockCalls.drop 1 ++ faultPattern turns, by
            simp [Outcome.state, clockCalls]⟩
      · rw [main_od_fail env turns s hosc hod]
        exact ⟨(clockCalls.take 4).drop 1 ++ faultPattern turns, by
          simp [Outcome.state, clockCalls]⟩
    · rw [main_osc_fail env turns s hosc]
      exact ⟨(clockCalls.take 3).drop 1 ++ faultPattern turns, by
        simp [Outcome.state, clockCalls]⟩

/-- C8 as stated fails: with `osThreadCreate` returning the null identifier and every
other call succeeding, `main` calls `osKernelStart` and issues no action of the fault
indicator. -/
theorem C8_counterexample :
    threadNullEnv.osThreadCreate = 0 ∧
    (main threadNullEnv 3 reset).state.LED1_ThreadId = 0 ∧
    (main threadNullEnv 3 reset).state.trace.getLast? = some .osKernelStart ∧
    (∀ e ∈ (main threadNullEnv 3 reset).state.trace, isFaultAction e = false) := by
  rw [main_healthy threadNullEnv 3 reset rfl rfl rfl rfl]
  refine ⟨rfl, rfl, ?_, ?_⟩ <;>
    simp [Outcome.state, reset, bootCalls, mpuCalls, cacheCalls, clockCalls, boardCalls,
      taskCalls, isFaultAction]

/-- C8, amended: `main` stores the identifier `osThreadCreate` returns in
`LED1_ThreadId` and does not test it. When the four checked calls succeed, whatever
identifier is returned (the null identifier included), the call that follows
`osThreadCreate` is `osKernelStart`, it is the last call of `main`, and no action of
the fault indicator is issued. -/
theorem C8_osThreadCreate_result_unchecked (env : Env) (turns : Nat) (s : State)
    (hosc : env.HAL_RCC_OscConfig = .HAL_OK)
    (hod : env.HAL_PWREx_ActivateOverDrive = .HAL_OK)
    (hclk : env.HAL_RCC_ClockConfig = .HAL_OK)
    (hlcd : env.BSP_LCD_Init = .LCD_OK) :
    (main env turns s).state.LED1_ThreadId = env.osThreadCreate ∧
    (main env turns s).state.trace = s.trace ++
      ((mpuCalls ++ cacheCalls ++ [.HAL_Init] ++ clockCalls ++ boardCalls env) ++
        [.osThreadCreate os_thread_def_LED1 0, .osKernelStart]) ∧
    (∀ e ∈ (main env turns s).state.trace.drop s.trace.length, isFaultAction e = false) := by
  rw [main_healthy env turns s hosc hod hclk hlcd]
  refine ⟨rfl, rfl, ?_⟩
  simp [Outcome.state, bootCalls, mpuCalls, cacheCalls, clockCalls, boardCalls,
      taskCalls, isFaultAction]

/-- C8, amended, at the environment in which `osThreadCreate` returns the null
identifier. -/
theorem C8_osThreadCreate_result_unchecked_witness :
    threadNullEnv.osThreadCreate = 0 ∧
    (main threadNullEnv 2 reset).state.LED1_ThreadId = threadNullEnv.osThreadCreate ∧
    (main threadNullEnv 2 reset).state.trace = reset.trace ++
      ((mpuCalls ++ cacheCalls ++ [.HAL_Init] ++ clockCalls ++ boardCalls threadNullEnv) ++
        [.osThreadCreate os_thread_def_LED1 0, .osKernelStart]) ∧
    (∀ e ∈ (main threadNullEnv 2 reset).state.trace.drop reset.trace.length,
      isFaultAction e = false) :=
  ⟨rfl, C8_osThreadCreate_result_unchecked threadNullEnv 2 reset rfl rfl rfl rfl⟩

/-! ## The periodic task -/

theorem LED_Thread1_for_eq (env : Env) (n prev : Nat) (s : State) :
    (LED_Thread1_for env n prev s).returned = false ∧
    (LED_Thread1_for env n prev s).state.trace = s.trace ++ ledCallsFrom prev n := by
  induction n generalizing prev s with
  | zero => simp [LED_Thread1_for, ledCallsFrom, Outcome.returned, Outcome.state]
  | succ n ih =>
    rw [LED_Thread1_for]
    simp only [bind_apply, codeBind_unfold, osDelayUntil, call_apply]
    refine ⟨(ih _ _).1, ?_⟩
    rw [(ih _ _).2]
    simp [ledCallsFrom]

theorem ledCallsFrom_shift (prev i : Nat) :
    ((prev + 1000) % 2 ^ 32 + i * 1000) % 2 ^ 32 = (prev + (i + 1) * 1000) % 2 ^ 32 := by
  omega

theorem ledCallsFrom_eq_flatten (n prev : Nat) (h : prev < 2 ^ 32) :
    ledCallsFrom prev n = ((List.range n).map fun i =>
      [Event.osDelayUntil ((prev + i * 1000) % 2 ^ 32) 1000, .BSP_LED_Toggle .LED1]).flatten := by
  induction n generalizing prev with
  | zero => rfl
  | succ n ih =>
    have h0 : (prev + 0 * 1000) % 2 ^ 32 = prev := by
      rw [Nat.zero_mul, Nat.add_zero, Nat.mod_eq_of_lt h]
    rw [ledCallsFrom, ih _ (Nat.mod_lt _ (Nat.two_pow_pos 32)), List.range_succ_eq_map,
      List.map_cons, List.flatten_cons, List.map_map, h0]
    simp only [Function.comp_def, Nat.succ_eq_add_one, ledCallsFrom_shift]

theorem ledCallsFrom_deadlines (n prev : Nat) :
    (ledCallsFrom prev n).filterMap requestedDeadline =
      (List.range n).map fun i => (prev + (i + 1) * 1000) % 2 ^ 32 := by
  induction n generalizing prev with
  | zero => rfl
  | succ n ih =>
    have h0 : (prev + (0 + 1) * 1000) % 2 ^ 32 = (prev + 1000) % 2 ^ 32 := by
      rw [Nat.zero_add, Nat.one_mul]
    rw [ledCallsFrom, List.range_succ_eq_map, List.map_cons, List.map_map, h0]
    simp only [List.cons_append, List.nil_append, List.filterMap_cons, requestedDeadline, ih,
      Function.comp_def, Nat.succ_eq_add_one, ledCallsFrom_shift]

/-- C3: with `osDelayUntil` modelled as the kernel absolute-delay primitive,
`LED_Thread1` never returns; it samples the tick counter once, on entry (`t0`, the
32-bit value of the tick counter), and then alternates one `osDelayUntil` with period
1000 and one `BSP_LED_Toggle`; the deadlines it requests are, in order, `t0 + 1000`,
`t0 + 2000`, ..., `t0 + n * 1000` modulo `2 ^ 32`, and the calls do not depend on when
the task is run again (any other environment gives the same calls). -/
theorem C3_LED_Thread1_deadlines (env env2 : Env) (n : Nat) (s : State) :
    (LED_Thread1 env n s).returned = false ∧
    (LED_Thread1 env n s).state.trace = s.trace ++ .osKernelSysTick ::
      ((List.range n).map fun i =>
        [Event.osDelayUntil ((s.tick % 2 ^ 32 + i * 1000) % 2 ^ 32) 1000,
         .BSP_LED_Toggle .LED1]).flatten ∧
    ((LED_Thread1 env n s).state.trace.drop s.trace.length).filterMap requestedDeadline =
      ((List.range n).map fun i => (s.tick % 2 ^ 32 + (i + 1) * 1000) % 2 ^ 32) ∧
    (LED_Thread1 env2 n s).state.trace = (LED_Thread1 env n s).state.trace := by
  have key : ∀ e : Env, (LED_Thread1 e n s).returned = false ∧
      (LED_Thread1 e n s).state.trace =
        s.trace ++ .osKernelSysTick :: ledCallsFrom (s.tick % 2 ^ 32) n := by
    intro e
    have h := LED_Thread1_for_eq e n (s.tick % 2 ^ 32)
      { s with trace := s.trace ++ [.osKernelSysTick] }
    simp only [LED_Thread1, bind_apply, codeBind_unfold, osKernelSysTick]
    refine ⟨h.1, ?_⟩
    rw [h.2]
    simp
  refine ⟨(key env).1, ?_, ?_, ?_⟩
  · rw [(key env).2, ledCallsFrom_eq_flatten _ _ (Nat.mod_lt _ (Nat.two_pow_pos 32))]
  · rw [(key env).2, List.drop_left]
    simp [List.filterMap_cons, requestedDeadline, ledCallsFrom_deadlines]
  · rw [(key env).2, (key env2).2]

end Stm32f7
